import Mathlib

/-!
Shallow embedding of the cough-classification inference service
(`src/public/backend/main.py`): audio normalisation, feature extraction,
feature scaling, classification and the HTTP-facing orchestration, together
with proofs of the specification claims.

Numeric values are modelled as exact rationals.  The external numeric
library transforms (librosa) are abstracted as function parameters of the
pipeline, since their numerics are not part of this repository; the numpy
summary statistics (mean/min/max) are embedded concretely, and the square
root used by the standard deviation is supplied as an abstract function
(a square root of a rational is irrational in general).  Python exceptions
are modelled by `Option`/`Except`.
-/

namespace CoughClassifier

/-- numpy mean of a list of values (for a matrix: mean of the flattened
values).  The empty case, which numpy treats as a warning-plus-NaN and which
never arises for the fixed-shape librosa outputs, is totalised to `0`. -/
def np_mean (xs : List ℚ) : ℚ := xs.sum / xs.length

/-- numpy population variance: mean of squared deviations from the mean. -/
def np_var (xs : List ℚ) : ℚ := np_mean (xs.map (fun x => (x - np_mean xs) ^ 2))

/-- numpy standard deviation, parametrised by the square-root routine. -/
def np_std (sq : ℚ → ℚ) (xs : List ℚ) : ℚ := sq (np_var xs)

/-- numpy minimum of a list (totalised to `0` on the empty list). -/
def np_min (xs : List ℚ) : ℚ :=
  match xs with
  | [] => 0
  | h :: t => t.foldl min h

/-- numpy maximum of a list (totalised to `0` on the empty list). -/
def np_max (xs : List ℚ) : ℚ :=
  match xs with
  | [] => 0
  | h :: t => t.foldl max h

/-- The `[mean, std, min, max]` summary block appended for each transform in
`extract_audio_features` (main.py lines 110-164). -/
def stats4 (sq : ℚ → ℚ) (xs : List ℚ) : List ℚ :=
  [np_mean xs, np_std sq xs, np_min xs, np_max xs]

/-- Python `int(...)` applied to a rational (truncation toward zero;
`Int` division truncates toward zero). -/
def py_int (q : ℚ) : ℤ := q.num / q.den

/-- `target_length = int(target_duration * sr)` (main.py line 91). -/
def target_len (target_duration : ℚ) (sr : ℕ) : ℕ :=
  (py_int (target_duration * (sr : ℚ))).toNat

/-- Pad-or-trim step of `extract_audio_features` (main.py lines 92-95):
shorter signals are right-padded with zeros, otherwise the first
`target_length` samples are kept. -/
def pad_or_trim (audio : List ℚ) (tl : ℕ) : List ℚ :=
  if audio.length < tl then audio ++ List.replicate (tl - audio.length) 0
  else audio.take tl

/-- The external routines used by the service: the base64 decoder, the
librosa decode/resample load, the nine librosa feature transforms, the
beat tracker and the numpy floating square root.  Each librosa call may
raise, modelled by `Option`; matrix-valued transforms return their rows. -/
structure AudioTransforms where
  b64decode : String → Option (List ℕ)
  load : List ℕ → ℚ → ℕ → Option (List ℚ)
  mfcc : ℕ → List ℚ → Option (List (List ℚ))
  spectral_centroid : List ℚ → Option (List ℚ)
  spectral_bandwidth : List ℚ → Option (List ℚ)
  spectral_rolloff : List ℚ → Option (List ℚ)
  zero_crossing_rate : List ℚ → Option (List ℚ)
  chroma_stft : List ℚ → Option (List (List ℚ))
  spectral_contrast : List ℚ → Option (List (List ℚ))
  tonnetz : List ℚ → Option (List (List ℚ))
  rms : List ℚ → Option (List ℚ)
  beat_track : List ℚ → Option (ℚ × List ℚ)
  numeric_sqrt : ℚ → ℚ

/-- `extract_audio_features` (main.py lines 81-174): decode the audio,
pad or trim to the target length, then append, in order, the four
13-wide MFCC statistic blocks, the `[mean, std, min, max]` block of each of
spectral centroid, bandwidth, rolloff, zero-crossing rate, chroma,
spectral contrast, tonnetz and RMS (the multi-row chroma/contrast/tonnetz
statistics are taken over the flattened matrix), and the tempo scalar.
Any exception anywhere in the body yields `none` (main.py lines 172-174). -/
def extract_audio_features (tr : AudioTransforms) (audio_bytes : List ℕ)
    (target_duration : ℚ) (sr : ℕ) : Option (List ℚ) :=
  (tr.load audio_bytes target_duration sr).bind fun audio0 =>
  let audio := pad_or_trim audio0 (target_len target_duration sr)
  (tr.mfcc 13 audio).bind fun mf =>
  (tr.spectral_centroid audio).bind fun cen =>
  (tr.spectral_bandwidth audio).bind fun bw =>
  (tr.spectral_rolloff audio).bind fun ro =>
  (tr.zero_crossing_rate audio).bind fun z =>
  (tr.chroma_stft audio).bind fun ch =>
  (tr.spectral_contrast audio).bind fun ct =>
  (tr.tonnetz audio).bind fun tz =>
  (tr.rms audio).bind fun r =>
  (tr.beat_track audio).bind fun bt =>
  some (mf.map np_mean ++ mf.map (np_std tr.numeric_sqrt)
    ++ mf.map np_min ++ mf.map np_max
    ++ stats4 tr.numeric_sqrt cen ++ stats4 tr.numeric_sqrt bw
    ++ stats4 tr.numeric_sqrt ro ++ stats4 tr.numeric_sqrt z
    ++ stats4 tr.numeric_sqrt ch.flatten ++ stats4 tr.numeric_sqrt ct.flatten
    ++ stats4 tr.numeric_sqrt tz.flatten ++ stats4 tr.numeric_sqrt r
    ++ [bt.1])

/-- The trained classifier artifact: `model.predict(X)[0]` and
`model.predict_proba(X)[0]` for the single row passed by the service. -/
structure Classifier where
  predict : List ℚ → ℕ
  predict_proba : List ℚ → List ℚ

/-- The fitted scaler artifact: per-feature location and scale. -/
structure Scaler where
  mean : List ℚ
  scale : List ℚ

/-- `model_config.json`: the label mapping from stringified class index to
domain label. -/
structure ModelConfig where
  label_mapping : List (String × String)

/-- Python exceptions that can escape the body of `predict_cough`. -/
inductive PyExc where
  | httpExc (status : ℕ) (detail : String)
  | dimensionMismatch (got expected : ℕ)
  | typeErr (msg : String)
  | keyErr (key : String)
  | indexErr (msg : String)
  | valueErr (msg : String)
deriving DecidableEq

/-- `str(e)` for the modelled exceptions (starlette renders an
`HTTPException` as `"{status_code}: {detail}"`). -/
def PyExc.str : PyExc → String
  | .httpExc status detail => toString status ++ ": " ++ detail
  | .dimensionMismatch got expected =>
      "X has " ++ toString got ++ " features, but the scaler is expecting "
        ++ toString expected ++ " features as input"
  | .typeErr msg => msg
  | .keyErr key => key
  | .indexErr msg => msg
  | .valueErr msg => msg

/-- Modelled from the spec: the fitted scaler artifact is an sklearn
StandardScaler whose source is not in `src/`; per the spec (section 3 and
section 4.3) its `transform` applies the per-feature affine map
`(x - mean) / scale` and raises a dimension-mismatch error when the input
length differs from the fitted dimensionality, with no truncation or
padding. -/
def Scaler.transform (s : Scaler) (v : List ℚ) : Except PyExc (List ℚ) :=
  if v.length = s.mean.length then
    .ok (List.zipWith (fun x ms => (x - ms.1) / ms.2) v (s.mean.zip s.scale))
  else
    .error (.dimensionMismatch v.length s.mean.length)

/-- The module-level globals `model`, `scaler`, `config`
(main.py lines 38-41), each `None` until loaded. -/
structure ServerState where
  model : Option Classifier
  scaler : Option Scaler
  config : Option ModelConfig

/-- Availability of the three on-disk artifacts at startup. -/
structure ArtifactStore where
  model_artifact : Option Classifier
  scaler_artifact : Option Scaler
  config_artifact : Option ModelConfig

/-- `load_models` (main.py lines 53-79): the three artifacts are loaded in
sequence into the globals; the first failure aborts the rest (assignments
already made persist) and the function returns `False`. -/
def load_models (store : ArtifactStore) : ServerState × Bool :=
  match store.model_artifact with
  | none => (⟨none, none, none⟩, false)
  | some m =>
    match store.scaler_artifact with
    | none => (⟨some m, none, none⟩, false)
    | some s =>
      match store.config_artifact with
      | none => (⟨some m, some s, none⟩, false)
      | some c => (⟨some m, some s, some c⟩, true)

/-- Response of the `/health` endpoint. -/
structure HealthStatus where
  status : String
  model_loaded : Bool
  scaler_loaded : Bool
  config_loaded : Bool
deriving DecidableEq

/-- `health` endpoint (main.py lines 197-205). -/
def health (st : ServerState) : HealthStatus :=
  { status := if st.model.isSome then "healthy" else "unhealthy",
    model_loaded := st.model.isSome,
    scaler_loaded := st.scaler.isSome,
    config_loaded := st.config.isSome }

/-- Response of the `/` root endpoint. -/
structure RootStatus where
  service : String
  status : String
  model_loaded : Bool
  version : String
deriving DecidableEq

/-- `root` endpoint (main.py lines 187-195). -/
def root (st : ServerState) : RootStatus :=
  { service := "Cough Classification ML API", status := "running",
    model_loaded := st.model.isSome, version := "1.0.0" }

/-- Request body of `/predict`: base64-encoded audio. -/
structure PredictionRequest where
  audio : String
deriving DecidableEq

/-- Response body of `/predict` (main.py lines 48-51). -/
structure PredictionResponse where
  predicted_cough_type : String
  confidence_score : ℚ
  message : Option String
deriving DecidableEq

/-- Rounding to the nearest integer with ties to even, the rounding used by
Python `round` on an exactly representable value. -/
def round_half_even (q : ℚ) : ℤ :=
  if q - ⌊q⌋ < 1/2 then ⌊q⌋
  else if 1/2 < q - ⌊q⌋ then ⌊q⌋ + 1
  else if ⌊q⌋ % 2 = 0 then ⌊q⌋ else ⌊q⌋ + 1

/-- Python `round(x, 2)` on an exact value. -/
def py_round2 (q : ℚ) : ℚ := (round_half_even (q * 100) : ℚ) / 100

/-- Body of the `try:` block of `predict_cough` (main.py lines 221-257):
decode the base64 audio, write it to a temporary file (a pass-through
here), extract features, scale, classify, translate the label through the
config and build the response.  Every Python exception raised in the body,
the explicit `HTTPException(400)` of line 235 included, is an `.error`. -/
def predict_body (tr : AudioTransforms) (m : Classifier) (s : Scaler)
    (config : Option ModelConfig) (req : PredictionRequest) :
    Except PyExc PredictionResponse :=
  match tr.b64decode req.audio with
  | none => Except.error (.valueErr "Invalid base64-encoded string")
  | some audio_data =>
    match extract_audio_features tr audio_data 5 22050 with
    | none => Except.error (.httpExc 400 "Failed to extract audio features")
    | some features =>
      match s.transform features with
      | .error e => .error e
      | .ok features_scaled =>
        let prediction := m.predict features_scaled
        let prediction_proba := m.predict_proba features_scaled
        match config with
        | none =>
          Except.error (.typeErr "NoneType object is not subscriptable")
        | some cfg =>
          match cfg.label_mapping.lookup (toString prediction) with
          | none => Except.error (.keyErr (toString prediction))
          | some cough_type =>
            match prediction_proba[prediction]? with
            | none => Except.error (.indexErr "index out of bounds")
            | some p =>
              Except.ok { predicted_cough_type := cough_type,
                          confidence_score := py_round2 (p * 100),
                          message := some "Prediction completed successfully" }

/-- The `/predict` endpoint `predict_cough` (main.py lines 207-261): a 503
guard that checks only the model and the scaler (not the config), then the
body under a blanket `except Exception` that converts every escaping
exception, the raised `HTTPException(400)` included, into a 500 response
with a generic message (main.py lines 259-261). -/
def predict_cough (tr : AudioTransforms) (st : ServerState)
    (req : PredictionRequest) : Except (ℕ × String) PredictionResponse :=
  match st.model, st.scaler with
  | some m, some s =>
    match predict_body tr m s st.config req with
    | .ok r => .ok r
    | .error e => .error (500, "Prediction failed: " ++ e.str)
  | _, _ => .error (503, "ML model not loaded")

/-- HTTP status code of a modelled endpoint result. -/
def http_status : Except (ℕ × String) PredictionResponse → ℕ
  | .error (code, _) => code
  | .ok _ => 200



/-- A concrete classifier used for the concrete scenarios: class index `1`
with probability vector `[0.12, 0.88]`. -/
def demoClassifier : Classifier :=
  { predict := fun _ => 1, predict_proba := fun _ => [12/100, 88/100] }

/-- A concrete 85-feature scaler (location 0, scale 1 per feature). -/
def demoScaler : Scaler :=
  { mean := List.replicate 85 0, scale := List.replicate 85 1 }

/-- The label mapping of the concrete scenarios. -/
def demoConfig : ModelConfig :=
  { label_mapping := [("0", "dry"), ("1", "wet")] }

/-- Concrete external routines on which every pipeline stage succeeds. -/
def demoTransforms : AudioTransforms :=
  { b64decode := fun _ => some [0, 0],
    load := fun _ _ _ => some [],
    mfcc := fun n _ => some (List.replicate n [0]),
    spectral_centroid := fun _ => some [0],
    spectral_bandwidth := fun _ => some [0],
    spectral_rolloff := fun _ => some [0],
    zero_crossing_rate := fun _ => some [0],
    chroma_stft := fun _ => some [[0]],
    spectral_contrast := fun _ => some [[0]],
    tonnetz := fun _ => some [[0]],
    rms := fun _ => some [0],
    beat_track := fun _ => some (120, []),
    numeric_sqrt := fun q => q }

/-- Server state with all three artifacts loaded. -/
def demoState : ServerState :=
  { model := some demoClassifier, scaler := some demoScaler,
    config := some demoConfig }

/-- A concrete request. -/
def demoReq : PredictionRequest := { audio := "AAAA" }

/-- The feature vector the demo pipeline extracts. -/
def demoFeatures : List ℚ :=
  (extract_audio_features demoTransforms [0, 0] 5 22050).getD []

/-- The demo feature vector after scaling. -/
def demoScaled : List ℚ :=
  ((demoScaler.transform demoFeatures).toOption).getD []

/-- C2: the normalisation step always produces exactly `target_length`
samples (110250 at the 5.0 s / 22050 Hz defaults); a shorter decoded signal
is right-padded with zeros and a longer one is truncated to its first
`target_length` samples, unchanged. -/
theorem pad_or_trim_spec (a : List ℚ) (tl : ℕ) :
    (pad_or_trim a tl).length = tl ∧
    (a.length ≤ tl → pad_or_trim a tl = a ++ List.replicate (tl - a.length) 0) ∧
    (tl ≤ a.length → pad_or_trim a tl = a.take tl) ∧
    target_len 5 22050 = 110250 := by
  refine ⟨?_, ?_, ?_, ?_⟩
  · unfold pad_or_trim
    split
    · rename_i h
      simp only [List.length_append, List.length_replicate]
      omega
    · rename_i h
      simp only [List.length_take]
      omega
  · intro h
    unfold pad_or_trim
    split
    · rfl
    · rename_i h2
      have hlen : a.length = tl := by omega
      rw [← hlen, List.take_length, Nat.sub_self, List.replicate_zero,
        List.append_nil]
  · intro h
    unfold pad_or_trim
    split
    · rename_i h2
      exfalso
      omega
    · rfl
  · norm_num [target_len, py_int]
    decide

/-- Witness for C2 at concrete inputs. -/
theorem pad_or_trim_spec_witness :
    pad_or_trim [(1 : ℚ), 2, 3] 5 =
      [(1 : ℚ), 2, 3] ++ List.replicate (5 - [(1 : ℚ), 2, 3].length) 0 ∧
    pad_or_trim [(1 : ℚ), 2, 3] 2 = [(1 : ℚ), 2, 3].take 2 :=
  ⟨(pad_or_trim_spec [(1 : ℚ), 2, 3] 5).2.1 (by simp),
   (pad_or_trim_spec [(1 : ℚ), 2, 3] 2).2.2.1 (by simp)⟩

/-- C6: feeding the scaler a vector whose length differs from its fitted
dimensionality of 85 fails with a dimension-mismatch error and never
succeeds. -/
theorem scaler_dimension_mismatch (s : Scaler) (v : List ℚ)
    (hdim : s.mean.length = 85) (hv : v.length ≠ 85) :
    s.transform v = .error (.dimensionMismatch v.length 85) ∧
    ∀ w, s.transform v ≠ .ok w := by
  have h : s.transform v = .error (.dimensionMismatch v.length 85) := by
    unfold Scaler.transform
    rw [hdim, if_neg hv]
  exact ⟨h, fun w hw => by rw [h] at hw; exact Except.noConfusion hw⟩

/-- Witness for C6: an 84-long vector against the 85-feature scaler. -/
theorem scaler_dimension_mismatch_witness :
    demoScaler.mean.length = 85 ∧ (List.replicate 84 (0 : ℚ)).length ≠ 85 ∧
    demoScaler.transform (List.replicate 84 0) =
      .error (.dimensionMismatch (List.replicate 84 (0 : ℚ)).length 85) :=
  ⟨by simp [demoScaler], by simp,
   (scaler_dimension_mismatch demoScaler (List.replicate 84 0)
      (by simp [demoScaler]) (by simp)).1⟩

/-- C7: the full inference pipeline is a pure function of the request and
the loaded state, so two runs on the same inputs produce equal results. -/
theorem predict_cough_deterministic (tr : AudioTransforms) (st : ServerState)
    (req : PredictionRequest)
    (r1 r2 : Except (ℕ × String) PredictionResponse)
    (h1 : r1 = predict_cough tr st req) (h2 : r2 = predict_cough tr st req) :
    r1 = r2 :=
  h1.trans h2.symm

/-- Witness for C7 at the concrete demo pipeline. -/
theorem predict_cough_deterministic_witness :
    predict_cough demoTransforms demoState demoReq =
      predict_cough demoTransforms demoState demoReq :=
  predict_cough_deterministic demoTransforms demoState demoReq _ _ rfl rfl

/-- C10: the health endpoint reports "healthy" if and only if the model is
loaded; scaler and config are reported in separate fields and do not affect
the status, and the root endpoint's `model_loaded` reflects only the
model. -/
theorem health_reports_model_only (st st2 : ServerState)
    (h : st.model.isSome = st2.model.isSome) :
    ((health st).status = "healthy" ↔ st.model.isSome = true) ∧
    (health st).model_loaded = st.model.isSome ∧
    (health st).scaler_loaded = st.scaler.isSome ∧
    (health st).config_loaded = st.config.isSome ∧
    (health st).status = (health st2).status ∧
    (root st).model_loaded = st.model.isSome := by
  refine ⟨?_, rfl, rfl, rfl, ?_, rfl⟩
  · cases hm : st.model.isSome <;> simp [health, hm]
  · simp only [health, h]

/-- Witness for C10: two states agreeing on the model but not the scaler. -/
theorem health_reports_model_only_witness :
    ((health demoState).status = "healthy" ↔ demoState.model.isSome = true) ∧
    (health demoState).model_loaded = demoState.model.isSome ∧
    (health demoState).scaler_loaded = demoState.scaler.isSome ∧
    (health demoState).config_loaded = demoState.config.isSome ∧
    (health demoState).status =
      (health { model := some demoClassifier, scaler := none,
                config := none }).status ∧
    (root demoState).model_loaded = demoState.model.isSome :=
  health_reports_model_only demoState
    { model := some demoClassifier, scaler := none, config := none } rfl

/-- Artifact store in which the model and the scaler are present but the
label-mapping configuration is missing. -/
def storeNoConfig : ArtifactStore :=
  { model_artifact := some demoClassifier, scaler_artifact := some demoScaler,
    config_artifact := none }

/-- C4 counterexample: with the model and the scaler loaded but the
configuration missing, `load_models` reports failure (the service is
unready), yet `predict_cough` does not fail fast with the 503
unavailability signal: it runs the pipeline and only fails inside the body
(subscripting the `None` config), surfacing as a generic 500. -/
theorem predict_cough_unready_counterexample :
    (load_models storeNoConfig).2 = false ∧
    predict_cough demoTransforms (load_models storeNoConfig).1 demoReq =
      .error (500,
        "Prediction failed: NoneType object is not subscriptable") ∧
    http_status
      (predict_cough demoTransforms (load_models storeNoConfig).1 demoReq)
      ≠ 503 :=
  ⟨rfl, rfl, by decide⟩

/-- C4 as amended: `load_models` reports success only when all three
artifacts load; the fast-fail 503 guard of the inference endpoint covers a
missing model or scaler (but, per the counterexample, not a missing
configuration). -/
theorem load_models_readiness (store : ArtifactStore) (tr : AudioTransforms)
    (st : ServerState) (req : PredictionRequest)
    (h : st.model = none ∨ st.scaler = none) :
    ((load_models store).2 = true ↔
      store.model_artifact.isSome ∧ store.scaler_artifact.isSome ∧
        store.config_artifact.isSome) ∧
    predict_cough tr st req = .error (503, "ML model not loaded") := by
  constructor
  · unfold load_models
    cases store.model_artifact <;> cases store.scaler_artifact <;>
      cases store.config_artifact <;> simp
  · rcases h with h | h <;>
      cases hm : st.model <;> cases hs : st.scaler <;>
        simp_all [predict_cough]

/-- Artifact store in which only the model is present (the scaler artifact
is missing). -/
def storeNoScaler : ArtifactStore :=
  { model_artifact := some demoClassifier, scaler_artifact := none,
    config_artifact := none }

/-- Server state before anything has loaded. -/
def emptyState : ServerState := { model := none, scaler := none, config := none }

/-- Witness for C4 (amended): a store with a missing scaler and a state
with no model loaded. -/
theorem load_models_readiness_witness :
    ((load_models storeNoScaler).2 = true ↔
      storeNoScaler.model_artifact.isSome ∧
        storeNoScaler.scaler_artifact.isSome ∧
        storeNoScaler.config_artifact.isSome) ∧
    predict_cough demoTransforms emptyState demoReq =
      .error (503, "ML model not loaded") :=
  load_models_readiness storeNoScaler demoTransforms emptyState demoReq
    (Or.inl rfl)

/-- External routines for which the librosa decode raises, so that feature
extraction fails. -/
def corruptTransforms : AudioTransforms :=
  { demoTransforms with load := fun _ _ _ => none }

/-- C5: when feature extraction fails the extractor returns no vector at
all, and the `HTTPException(400, "Failed to extract audio features")`
raised by the endpoint body is swallowed by the blanket
`except Exception` (main.py line 259), so the caller receives a generic
500 server error instead of the client-attributable 400 naming the
extraction stage. -/
theorem predict_cough_extraction_failure_500 :
    extract_audio_features corruptTransforms [0, 0] 5 22050 = none ∧
    predict_cough corruptTransforms demoState demoReq =
      .error (500,
        "Prediction failed: 400: Failed to extract audio features") ∧
    http_status (predict_cough corruptTransforms demoState demoReq) ≠ 400 :=
  ⟨rfl, rfl, by decide⟩

lemma round_half_even_bounds (x : ℚ) (h0 : 0 ≤ x) (h1 : x ≤ 10000) :
    0 ≤ round_half_even x ∧ round_half_even x ≤ 10000 := by
  have hfl : (0 : ℤ) ≤ ⌊x⌋ := by
    rw [Int.le_floor]
    exact_mod_cast h0
  have hfu : ⌊x⌋ ≤ 10000 := by
    have := Int.floor_le_floor h1
    simpa using this
  unfold round_half_even
  split
  · exact ⟨hfl, hfu⟩
  · rename_i hlt
    split
    · rename_i hgt
      have hx : (⌊x⌋ : ℚ) + 1/2 < x := by linarith
      have : (⌊x⌋ : ℚ) < 10000 := by linarith
      have : ⌊x⌋ < 10000 := by exact_mod_cast this
      omega
    · rename_i hgt
      have heq : x - ⌊x⌋ = 1/2 := le_antisymm (not_lt.mp hgt) (not_lt.mp hlt)
      have : (⌊x⌋ : ℚ) < 10000 := by linarith
      have hlt10 : ⌊x⌋ < 10000 := by exact_mod_cast this
      split
      · exact ⟨hfl, hfu⟩
      · omega

lemma py_round2_bounds (q : ℚ) (h0 : 0 ≤ q) (h1 : q ≤ 100) :
    0 ≤ py_round2 q ∧ py_round2 q ≤ 100 := by
  have h := round_half_even_bounds (q * 100) (by positivity) (by linarith)
  unfold py_round2
  constructor
  · have : (0 : ℚ) ≤ (round_half_even (q * 100) : ℚ) := by exact_mod_cast h.1
    positivity
  · rw [div_le_iff₀ (by norm_num)]
    have : ((round_half_even (q * 100) : ℤ) : ℚ) ≤ 10000 := by
      exact_mod_cast h.2
    linarith

/-- Unfolding lemma for the success path of the inference endpoint: when
every stage of the pipeline succeeds, `predict_cough` returns the label
obtained by translating the predicted class index through the label map,
and the confidence equal to the probability at the predicted index scaled
to a percentage and rounded to two decimals. -/
lemma predict_pipeline_eq (tr : AudioTransforms) (st : ServerState)
    (req : PredictionRequest) (m : Classifier) (s : Scaler) (c : ModelConfig)
    (bs : List ℕ) (f fs : List ℚ) (lbl : String) (p : ℚ)
    (hm : st.model = some m) (hs : st.scaler = some s)
    (hc : st.config = some c)
    (hb : tr.b64decode req.audio = some bs)
    (hf : extract_audio_features tr bs 5 22050 = some f)
    (hsc : s.transform f = .ok fs)
    (hl : c.label_mapping.lookup (toString (m.predict fs)) = some lbl)
    (hp : (m.predict_proba fs)[m.predict fs]? = some p) :
    predict_cough tr st req =
      .ok { predicted_cough_type := lbl,
            confidence_score := py_round2 (p * 100),
            message := some "Prediction completed successfully" } := by
  unfold predict_cough
  rw [hm, hs]
  unfold predict_body
  simp only [hb, hf, hsc, hc, hl, hp]

/-- C3: the returned label is the classifier's predicted class index
translated through the label map, and the returned confidence is the
probability at the predicted index scaled to a percentage. -/
theorem predict_cough_label_confidence (tr : AudioTransforms)
    (st : ServerState) (req : PredictionRequest) (m : Classifier)
    (s : Scaler) (c : ModelConfig) (bs : List ℕ) (f fs : List ℚ)
    (lbl : String) (p : ℚ)
    (hm : st.model = some m) (hs : st.scaler = some s)
    (hc : st.config = some c)
    (hb : tr.b64decode req.audio = some bs)
    (hf : extract_audio_features tr bs 5 22050 = some f)
    (hsc : s.transform f = .ok fs)
    (hl : c.label_mapping.lookup (toString (m.predict fs)) = some lbl)
    (hp : (m.predict_proba fs)[m.predict fs]? = some p) :
    predict_cough tr st req =
      .ok { predicted_cough_type := lbl,
            confidence_score := py_round2 (p * 100),
            message := some "Prediction completed successfully" } :=
  predict_pipeline_eq tr st req m s c bs f fs lbl p hm hs hc hb hf hsc hl hp

/-- Witness for C3, Scenario C: a classifier returning class index 1 with
label map `{"0": dry, "1": wet}` and probability vector `[0.12, 0.88]`
yields label "wet" and confidence 88.0. -/
theorem predict_cough_label_confidence_witness :
    predict_cough demoTransforms demoState demoReq =
      .ok { predicted_cough_type := "wet", confidence_score := 88,
            message := some "Prediction completed successfully" } := by
  have h := predict_cough_label_confidence demoTransforms demoState demoReq
    demoClassifier demoScaler demoConfig [0, 0] demoFeatures demoScaled
    "wet" (88/100) rfl rfl rfl rfl rfl rfl rfl rfl
  have hr : py_round2 ((88 : ℚ)/100 * 100) = 88 := by
    norm_num [py_round2, round_half_even]
  rw [hr] at h
  exact h

/-- The response of the demo pipeline. -/
def demoResp : PredictionResponse :=
  { predicted_cough_type := "wet", confidence_score := py_round2 (88/100 * 100),
    message := some "Prediction completed successfully" }

/-- C8: for a successful prediction whose probability entry lies in [0,1],
the returned confidence score lies in [0,100] and equals the predicted
class probability scaled to a percentage and rounded to 2 decimals. -/
theorem confidence_score_range (tr : AudioTransforms) (st : ServerState)
    (req : PredictionRequest) (m : Classifier) (s : Scaler) (c : ModelConfig)
    (bs : List ℕ) (f fs : List ℚ) (lbl : String) (p : ℚ)
    (hm : st.model = some m) (hs : st.scaler = some s)
    (hc : st.config = some c)
    (hb : tr.b64decode req.audio = some bs)
    (hf : extract_audio_features tr bs 5 22050 = some f)
    (hsc : s.transform f = .ok fs)
    (hl : c.label_mapping.lookup (toString (m.predict fs)) = some lbl)
    (hp : (m.predict_proba fs)[m.predict fs]? = some p)
    (hp0 : 0 ≤ p) (hp1 : p ≤ 1) (r : PredictionResponse)
    (hr : predict_cough tr st req = .ok r) :
    0 ≤ r.confidence_score ∧ r.confidence_score ≤ 100 ∧
    r.confidence_score = py_round2 (p * 100) := by
  have he := predict_pipeline_eq tr st req m s c bs f fs lbl p
    hm hs hc hb hf hsc hl hp
  have hrec := Except.ok.inj (he.symm.trans hr)
  obtain ⟨b1, b2⟩ := py_round2_bounds (p * 100)
    (mul_nonneg hp0 (by norm_num)) (by linarith)
  rw [← hrec]
  exact ⟨b1, b2, rfl⟩

/-- Witness for C8 at the demo pipeline with probability 0.88. -/
theorem confidence_score_range_witness :
    0 ≤ demoResp.confidence_score ∧ demoResp.confidence_score ≤ 100 ∧
    demoResp.confidence_score = py_round2 (88/100 * 100) :=
  confidence_score_range demoTransforms demoState demoReq demoClassifier
    demoScaler demoConfig [0, 0] demoFeatures demoScaled "wet" (88/100)
    rfl rfl rfl rfl rfl rfl rfl rfl (by norm_num) (by norm_num) demoResp rfl

/-- C1: whenever the feature extractor accepts a waveform (every transform
succeeds), it returns the concatenation, in fixed order, of the 13 MFCC
means, 13 MFCC standard deviations, 13 MFCC minima, 13 MFCC maxima, the
mean/std/min/max block of spectral centroid, bandwidth, rolloff,
zero-crossing rate, chroma, spectral contrast, tonnetz and RMS, and the
tempo scalar last; every returned vector has length exactly 85. -/
theorem extract_audio_features_layout (tr : AudioTransforms)
    (bs : List ℕ) (d : ℚ) (sr : ℕ) (a au : List ℚ)
    (mf ch ct tz : List (List ℚ)) (cen bw ro z r : List ℚ) (bt : ℚ × List ℚ)
    (hload : tr.load bs d sr = some a)
    (hau : au = pad_or_trim a (target_len d sr))
    (hmf : tr.mfcc 13 au = some mf) (hrows : mf.length = 13)
    (hcen : tr.spectral_centroid au = some cen)
    (hbw : tr.spectral_bandwidth au = some bw)
    (hro : tr.spectral_rolloff au = some ro)
    (hz : tr.zero_crossing_rate au = some z)
    (hch : tr.chroma_stft au = some ch)
    (hct : tr.spectral_contrast au = some ct)
    (htz : tr.tonnetz au = some tz)
    (hrm : tr.rms au = some r)
    (hbt : tr.beat_track au = some bt) :
    extract_audio_features tr bs d sr =
      some (mf.map np_mean ++ mf.map (np_std tr.numeric_sqrt)
        ++ mf.map np_min ++ mf.map np_max
        ++ stats4 tr.numeric_sqrt cen ++ stats4 tr.numeric_sqrt bw
        ++ stats4 tr.numeric_sqrt ro ++ stats4 tr.numeric_sqrt z
        ++ stats4 tr.numeric_sqrt ch.flatten
        ++ stats4 tr.numeric_sqrt ct.flatten
        ++ stats4 tr.numeric_sqrt tz.flatten ++ stats4 tr.numeric_sqrt r
        ++ [bt.1]) ∧
    ∀ fv, extract_audio_features tr bs d sr = some fv → fv.length = 85 := by
  subst hau
  have h1 : extract_audio_features tr bs d sr =
      some (mf.map np_mean ++ mf.map (np_std tr.numeric_sqrt)
        ++ mf.map np_min ++ mf.map np_max
        ++ stats4 tr.numeric_sqrt cen ++ stats4 tr.numeric_sqrt bw
        ++ stats4 tr.numeric_sqrt ro ++ stats4 tr.numeric_sqrt z
        ++ stats4 tr.numeric_sqrt ch.flatten
        ++ stats4 tr.numeric_sqrt ct.flatten
        ++ stats4 tr.numeric_sqrt tz.flatten ++ stats4 tr.numeric_sqrt r
        ++ [bt.1]) := by
    unfold extract_audio_features
    simp only [hload, hmf, hcen, hbw, hro, hz, hch, hct, htz, hrm, hbt,
      Option.some_bind]
  refine ⟨h1, fun fv hfv => ?_⟩
  have h2 := Option.some.inj (h1.symm.trans hfv)
  rw [← h2]
  simp only [stats4, List.length_append, List.length_map, List.length_cons,
    List.length_singleton, hrows]
  norm_num

/-- Witness for C1 at the demo transforms. -/
theorem extract_audio_features_layout_witness :
    extract_audio_features demoTransforms [0, 0] 5 22050 = some demoFeatures ∧
    demoFeatures.length = 85 := by
  have h := extract_audio_features_layout demoTransforms [0, 0] 5 22050 []
    (pad_or_trim [] (target_len 5 22050)) (List.replicate 13 [0])
    [[0]] [[0]] [[0]] [0] [0] [0] [0] [0] (120, [])
    rfl rfl rfl (by simp) rfl rfl rfl rfl rfl rfl rfl rfl rfl
  have hd : extract_audio_features demoTransforms [0, 0] 5 22050 =
      some demoFeatures := h.1.trans rfl
  exact ⟨hd, h.2 demoFeatures hd⟩

end CoughClassifier
